import Mathlib

/-!
Verification development for the OnTheForm backend's public form-submission
pipeline (`backend/src/routes/submissions` route module, together with the
`update_form_submission_count` trigger of `backend/database/schema.sql` and
`backend/src/services/emailService.js`).

The JavaScript source is shallowly embedded: response values are modelled by
the inductive `Value` (a string or an array of strings — the shapes the field
types in scope produce), a JSON object by a lookup function
`String → Option Value`, database state by an explicit `DbState` record, and
each route stage by a total Lean function mirroring the corresponding code.
JavaScript exceptions become explicit error results.
-/

/-- A response value as it appears in the `responses` JSON object:
either a scalar string or an array of strings (checkbox answers). -/
inductive Value where
  | str (s : String)
  | arr (l : List String)
deriving DecidableEq, Repr

/-- The `responses` request-body object: field id to value.
`none` models an absent key (JS `undefined`) as well as `null`. -/
def Responses := String → Option Value

/-- JavaScript truthiness of a response value: the empty string is falsy,
every array object (even `[]`) is truthy, `undefined`/`null` are falsy. -/
def jsTruthy : Option Value → Bool
  | none => false
  | some (.str s) => s ≠ ""
  | some (.arr _) => true

/-- JavaScript string coercion as used by `emailRegex.test(v)` when `v`
is not a string: an array coerces to its elements joined by commas. -/
def jsToString : Value → String
  | .str s => s
  | .arr l => String.intercalate "," l

/-- The elements iterated by the checkbox check:
`Array.isArray(v) ? v : [v]`. -/
def jsToArray : Value → List String
  | .str s => [s]
  | .arr l => l

/-- Split a character list at the first occurrence of `c`. -/
def splitFirst (c : Char) : List Char → Option (List Char × List Char)
  | [] => none
  | x :: xs =>
    if x = c then some ([], xs)
    else match splitFirst c xs with
      | some (a, b) => some (x :: a, b)
      | none => none

/-- The email shape check `/^[^\s@]+@[^\s@]+\.[^\s@]+$/` used both by
`validateFormResponses` and by the submitter-email extraction loop:
exactly one `@`, a non-empty whitespace-free local part, and a domain
that is whitespace-free with a dot that is neither first nor last. -/
def emailRegexTest (s : String) : Bool :=
  match splitFirst '@' s.toList with
  | none => false
  | some (lp, dom) =>
    decide (lp ≠ []) && lp.all (fun c => !c.isWhitespace) &&
    dom.all (fun c => !c.isWhitespace && !(c = '@')) &&
    ((dom.drop 1).dropLast.contains '.')

/-- JavaScript `String.prototype.trim` (whitespace stripped at both ends),
written over the character list so that it evaluates in the kernel. -/
def jsTrim (s : String) : String :=
  .mk (((s.toList.dropWhile Char.isWhitespace).reverse.dropWhile Char.isWhitespace).reverse)

/-- JavaScript `String.prototype.toLowerCase` (ASCII-adequate model). -/
def jsToLower (s : String) : String :=
  .mk (s.toList.map Char.toLower)

/-- One field definition of a form's `fields` JSONB array
(the properties the submission pipeline reads). -/
structure FormField where
  id : String
  type : String
  label : String
  required : Bool := false
  options : Option (List String) := none
  allow_other : Bool := false
deriving DecidableEq, Repr

/-- The columns of a `forms` row read by `router.post('/')` on the
submissions router. -/
structure Form where
  id : String
  title : String
  fields : List FormField
  unique_constraint_type : Option String := none
  unique_constraint_field : Option String := none
  show_qr_code : Bool := false
  send_email_notification : Bool := false
  banner_url : Option String := none
deriving DecidableEq, Repr

/-! ### Response validator (`validateFormResponses`)

The JS function loops over the form's fields pushing messages into an
`errors` array; each loop iteration is split below into the four `if`
blocks of the source, concatenated in source order. -/

/-- The required-field check: `value === undefined || value === null ||
value === ''`, else `Array.isArray(value) && value.length === 0`. -/
def requiredError (rs : Responses) (f : FormField) : List String :=
  if f.required then
    match rs f.id with
    | none => [f.label ++ " is required"]
    | some (.str s) => if s = "" then [f.label ++ " is required"] else []
    | some (.arr l) => if l = [] then [f.label ++ " is required"] else []
  else []

/-- The email-field check: guarded by `field.type === 'email' &&
responses[field.id]` (truthiness), then the shape regex on the value. -/
def emailFieldError (rs : Responses) (f : FormField) : List String :=
  if f.type = "email" && jsTruthy (rs f.id) then
    match rs f.id with
    | some v =>
      if emailRegexTest (jsToString v) then []
      else [f.label ++ " must be a valid email address"]
    | none => []
  else []

/-- Whether `field.options.includes(v)` holds: an array value is never
`===` to a string option, so only string values can match. -/
def valueInOptions (v : Value) (opts : List String) : Bool :=
  match v with
  | .str s => opts.contains s
  | .arr _ => false

/-- The select/radio option check: when the value is truthy, `field.options`
is present and does not include the value, an error is pushed unless the
field's `allow_other` flag is set. -/
def selectRadioError (rs : Responses) (f : FormField) : List String :=
  if (f.type = "select" || f.type = "radio") && jsTruthy (rs f.id) then
    match rs f.id, f.options with
    | some v, some opts =>
      if !valueInOptions v opts && !f.allow_other then
        [f.label ++ " contains an invalid option"]
      else []
    | _, _ => []
  else []

/-- The checkbox option check: each element of the (wrapped) array that is
not among the options pushes an error. Note the source consults
`allow_other` nowhere in this block. -/
def checkboxError (rs : Responses) (f : FormField) : List String :=
  if f.type = "checkbox" && jsTruthy (rs f.id) then
    match rs f.id, f.options with
    | some v, some opts =>
      (jsToArray v).filterMap (fun x =>
        if opts.contains x then none
        else some (f.label ++ " contains an invalid option: " ++ x))
    | _, _ => []
  else []

/-- The errors one loop iteration of `validateFormResponses` pushes for
field `f`, in source order. -/
def fieldErrors (rs : Responses) (f : FormField) : List String :=
  requiredError rs f ++ emailFieldError rs f ++ selectRadioError rs f ++ checkboxError rs f

/-- The `errors` array accumulated by `validateFormResponses` over all
fields (the function then throws `FORM_VALIDATION_ERROR` iff this list is
non-empty; the caller has already looked the form up, and the function's
own re-query returns the same `fields`). -/
def validateFormResponses (fields : List FormField) (rs : Responses) : List String :=
  fields.foldl (fun acc f => acc ++ fieldErrors rs f) []

/-! ### Submitter-email extraction

The handler's loop over `form.fields` looking for the first truthy
email-typed value: a valid shape (after `trim`) yields the lowercased
address and breaks; an invalid shape throws `INVALID_EMAIL_FORMAT`;
a non-string truthy value would make `.trim()` throw a `TypeError`. -/

/-- Errors the extraction loop can throw. -/
inductive ExtractError where
  | invalidFormat (label : String)
  | typeError
deriving DecidableEq, Repr

/-- The submitter-email extraction loop of `router.post('/')`. -/
def extractSubmitterEmail (fields : List FormField) (rs : Responses) :
    Except ExtractError (Option String) :=
  match fields with
  | [] => .ok none
  | f :: rest =>
    if f.type = "email" && jsTruthy (rs f.id) then
      match rs f.id with
      | some (.str s) =>
        let emailValue := jsTrim s
        if emailRegexTest emailValue then .ok (some (jsToLower emailValue))
        else .error (.invalidFormat f.label)
      | some (.arr _) => .error .typeError
      | none => extractSubmitterEmail rest rs
    else extractSubmitterEmail rest rs

/-! ### Database state

The pipeline's shared mutable state: the `form_submissions` rows and the
`forms.submission_count` column (per form id). `insertSubmission` models
`INSERT INTO form_submissions` *together with* the `AFTER INSERT` trigger
`update_form_submission_count` of `schema.sql`, which increments the
owning form's counter; `deleteSubmissionById` models
`DELETE FROM form_submissions WHERE id = $1` together with the same
trigger's `DELETE` branch (decrement per deleted row). The route's own
`UPDATE forms SET submission_count = submission_count + 1` is
`routeIncrementCount`. -/

/-- A `form_submissions` row as written by the submit endpoint. -/
structure SubmissionRow where
  id : String
  form_id : String
  responses : Responses
  submitter_email : Option String
  submitter_ip : String
  user_agent : String

/-- Database state: submission rows plus each form's denormalized
`submission_count`. -/
structure DbState where
  submissions : List SubmissionRow
  counts : String → Int

/-- Model of `INSERT INTO form_submissions ...` plus the `AFTER INSERT` trigger
(`UPDATE forms SET submission_count = submission_count + 1 WHERE id =
NEW.form_id`). -/
def insertSubmission (db : DbState) (row : SubmissionRow) : DbState :=
  { submissions := db.submissions ++ [row],
    counts := fun fid => if fid = row.form_id then db.counts fid + 1 else db.counts fid }

/-- The route's explicit `UPDATE forms SET submission_count =
submission_count + 1 WHERE id = $1` after the insert. -/
def routeIncrementCount (db : DbState) (formId : String) : DbState :=
  { db with counts := fun fid => if fid = formId then db.counts fid + 1 else db.counts fid }

/-- Model of `DELETE FROM form_submissions WHERE id = $1` (the delete-submission
route runs no counter update of its own) plus the trigger's `DELETE`
branch, fired once per deleted row. -/
def deleteSubmissionById (db : DbState) (sid : String) : DbState :=
  { submissions := db.submissions.filter (fun r => r.id ≠ sid),
    counts := fun fid =>
      db.counts fid -
        ((db.submissions.filter (fun r => r.id = sid && r.form_id = fid)).length : Int) }

/-! ### Uniqueness-constraint check -/

/-- Outcome of the `switch (form.unique_constraint_type)` block. -/
inductive UniqueOutcome where
  | ok
  | missingField
  | duplicate (msg : String)
deriving DecidableEq, Repr

/-- Text produced by PostgreSQL `responses->>'field'` on a stored value
(for the scalar values the constraint feature compares). -/
def pgTextOf : Value → String
  | .str s => s
  | .arr l => String.intercalate "," l

/-- The unique-constraint block of `router.post('/')`: for `'ip'`, query
for an existing row of this form with the requester's IP; for `'field'`,
first require `unique_constraint_field` and a truthy incoming value
(else `UNIQUE_FIELD_REQUIRED`), then query for an existing row whose
stored value at that field equals the incoming one; any other
constraint type builds no query and passes. -/
def uniqueCheck (form : Form) (rs : Responses) (submitterIp : String)
    (subs : List SubmissionRow) : UniqueOutcome :=
  match form.unique_constraint_type with
  | some "ip" =>
    if subs.any (fun s => s.form_id = form.id && s.submitter_ip = submitterIp) then
      .duplicate "You have already submitted this form from this IP address"
    else .ok
  | some "field" =>
    match form.unique_constraint_field with
    | none => .missingField
    | some cf =>
      if cf = "" || !jsTruthy (rs cf) then .missingField
      else if subs.any (fun s => s.form_id = form.id &&
          (s.responses cf).map pgTextOf = (rs cf).map jsToString) then
        .duplicate "A submission with this value already exists"
      else .ok
  | _ => .ok

/-! ### Email Delivery Adapter (`emailService.sendSubmissionConfirmation`) -/

/-- What a provider's send call resolves to: a Kirim/axios response object
(with `.status` and `.data`), or the array `[response, body]` that
`sgMail.send` resolves to (which has no `.data` property). -/
inductive ProviderResponse where
  | axiosResp (status : Nat) (dataId : Option String)
  | sgArray (statusCode : Nat)
deriving DecidableEq, Repr

/-- Errors `sendSubmissionConfirmation` can throw to its caller. -/
inductive EmailSendError where
  | transport
  | typeError
deriving DecidableEq, Repr

/-- The successful return value `{ success: true, messageId, status }`. -/
structure SendSuccess where
  messageId : String
  status : Option Nat
deriving DecidableEq, Repr

/-- The configured `EMAIL_PROVIDER` (constructor-validated to these two). -/
inductive Provider where
  | kirim
  | sendgrid
deriving DecidableEq, Repr

/-- JS property access `response.data` (undefined on the SendGrid array). -/
def responseDataOf : ProviderResponse → Option (Option String)
  | .axiosResp _ dataId => some dataId
  | .sgArray _ => none

/-- JS property access `response.status` (undefined on the SendGrid array). -/
def responseStatusOf : ProviderResponse → Option Nat
  | .axiosResp status _ => some status
  | .sgArray _ => none

/-- The provider branch of `sendSubmissionConfirmation`: which response
object `response` holds after the `if/else if` on `this.provider`, given
whether the network call itself failed (rejected). -/
def providerSend (p : Provider) (transportFails : Bool)
    (kirimStatus : Nat) (kirimDataId : Option String) (sgStatusCode : Nat) :
    Except EmailSendError ProviderResponse :=
  if transportFails then .error .transport
  else match p with
    | .kirim => .ok (.axiosResp kirimStatus kirimDataId)
    | .sendgrid => .ok (.sgArray sgStatusCode)

/-- The body of `EmailService.sendSubmissionConfirmation`: after the provider send,
the success return evaluates `response.data.id || 'unknown'`; when
`response.data` is undefined (the SendGrid array) this member access
throws a `TypeError`, which the surrounding catch logs and rethrows. -/
def sendSubmissionConfirmation (p : Provider) (transportFails : Bool)
    (kirimStatus : Nat) (kirimDataId : Option String) (sgStatusCode : Nat) :
    Except EmailSendError SendSuccess :=
  match providerSend p transportFails kirimStatus kirimDataId sgStatusCode with
  | .error e => .error e
  | .ok response =>
    match responseDataOf response with
    | none => .error .typeError
    | some dataId => .ok ⟨dataId.getD "unknown", responseStatusOf response⟩

/-! ### The submit endpoint `router.post('/')` -/

/-- The success body built into `responseData` (submission identity plus
the optional side-effect report fields). -/
structure SuccessResponse where
  submissionId : String
  qrCode : Option String
  emailSent : Option Bool
  emailError : Option String
deriving DecidableEq, Repr

/-- The handler's observable outcome, one constructor per distinct
response the route can produce (the `catch` block maps these to HTTP
statuses and machine codes, see `statusOf`/`errorCodeOf`). -/
inductive SubmitResult where
  | notFound
  | uniqueFieldRequired
  | duplicate (msg : String)
  | validationFailed (errors : List String)
  | invalidEmailFormat (label : String)
  | internalError
  | success (r : SuccessResponse)
deriving DecidableEq, Repr

/-- HTTP status the route responds with for each outcome (per the
`res.status(...)` calls and the `catch` block's mapping). -/
def statusOf : SubmitResult → Nat
  | .notFound => 404
  | .uniqueFieldRequired => 400
  | .duplicate _ => 409
  | .validationFailed _ => 400
  | .invalidEmailFormat _ => 400
  | .internalError => 500
  | .success _ => 201

/-- The machine-readable `code` of each error response. -/
def errorCodeOf : SubmitResult → String
  | .notFound => "FORM_NOT_FOUND"
  | .uniqueFieldRequired => "UNIQUE_FIELD_REQUIRED"
  | .duplicate _ => "DUPLICATE_SUBMISSION"
  | .validationFailed _ => "FORM_VALIDATION_ERROR"
  | .invalidEmailFormat _ => "INVALID_EMAIL_FORMAT"
  | .internalError => "INTERNAL_ERROR"
  | .success _ => ""

/-- The submit handler, stage by stage in source order. `formLookup` is
the result of the initial active-form query (`none`: no row). `newId` is
the generated UUID, `qrGen` the outcome of `QRCode.toDataURL` (`none`:
it threw), `emailResult` the outcome of
`emailService.sendSubmissionConfirmation`. Returns the response outcome
and the database state after the request. -/
def handleSubmit (formLookup : Option Form) (rs : Responses)
    (submitterIp userAgent : String) (db : DbState) (newId : String)
    (qrGen : Option String) (emailResult : Except EmailSendError SendSuccess) :
    SubmitResult × DbState :=
  match formLookup with
  | none => (.notFound, db)
  | some form =>
    match uniqueCheck form rs submitterIp db.submissions with
    | .duplicate m => (.duplicate m, db)
    | .missingField => (.uniqueFieldRequired, db)
    | .ok =>
      let errs := validateFormResponses form.fields rs
      if errs ≠ [] then (.validationFailed errs, db)
      else
        match extractSubmitterEmail form.fields rs with
        | .error (.invalidFormat l) => (.invalidEmailFormat l, db)
        | .error .typeError => (.internalError, db)
        | .ok submitterEmail =>
          let row : SubmissionRow :=
            ⟨newId, form.id, rs, submitterEmail, submitterIp, userAgent⟩
          let db1 := insertSubmission db row
          let db2 := routeIncrementCount db1 form.id
          let qrCode := if form.show_qr_code then qrGen else none
          let (emailSent, emailError) :=
            if form.send_email_notification && submitterEmail.isSome then
              match emailResult with
              | .ok _ => (some true, none)
              | .error _ => (some false, some "Failed to send confirmation email")
            else (none, none)
          (.success ⟨newId, qrCode, emailSent, emailError⟩, db2)


/-! ### Concrete scenarios used by the counterexample and witness theorems -/

/-- The empty response object. -/
def rsEmpty : Responses := fun _ => none

/-- An empty database: no submissions, every counter 0. -/
def db0 : DbState := ⟨[], fun _ => 0⟩

/-- A minimal active form with one optional text field and no constraint. -/
def formPlain : Form :=
  { id := "f1", title := "Contact", fields := [{ id := "note", type := "text", label := "Note" }] }

/-- A required text field. -/
def fullNameField : FormField :=
  { id := "name", type := "text", label := "Full Name", required := true }

/-- A required email field. -/
def emailAddressField : FormField :=
  { id := "email", type := "email", label := "Email Address", required := true }

/-- A checkbox field with the escape-hatch flag set. -/
def colorsField : FormField :=
  { id := "colors", type := "checkbox", label := "Colors",
    options := some ["Red", "Blue"], allow_other := true }

/-- A select field with the escape-hatch flag set. -/
def subjectField : FormField :=
  { id := "subject", type := "select", label := "Subject",
    options := some ["Support", "Sales"], allow_other := true }

/-- A form with a per-IP uniqueness constraint and a required field. -/
def formIp : Form :=
  { id := "f2", title := "IpForm", fields := [fullNameField],
    unique_constraint_type := some "ip" }

/-- A prior submission to `formIp` from IP 9.9.9.9. -/
def rowIp : SubmissionRow := ⟨"s0", "f2", rsEmpty, none, "9.9.9.9", "ua"⟩

/-- Database state holding the prior `formIp` submission. -/
def dbIp : DbState := ⟨[rowIp], fun fid => if fid = "f2" then 2 else 0⟩

/-- A form with a per-field uniqueness constraint targeting the email field. -/
def formUniqueField : Form :=
  { id := "f3", title := "FieldForm", fields := [emailAddressField],
    unique_constraint_type := some "field", unique_constraint_field := some "email" }

/-- A form with email notification and QR code enabled. -/
def formNotify : Form :=
  { id := "f4", title := "NotifyForm", fields := [emailAddressField],
    show_qr_code := true, send_email_notification := true }

/-- A form holding only the required email field, no constraint. -/
def formBadEmail : Form :=
  { id := "f5", title := "BadEmailForm", fields := [emailAddressField] }

/-- The two-field schema of the error-collection scenario. -/
def pairFields : List FormField := [fullNameField, emailAddressField]

/-- Responses providing a well-formed mixed-case email address. -/
def rsEmail : Responses := fun k => if k = "email" then some (.str "A@B.co") else none

/-- Responses providing a malformed email address. -/
def rsBadEmail : Responses := fun k => if k = "email" then some (.str "not-an-email") else none

/-- Responses providing a whitespace-only value for the name field. -/
def rsBlank : Responses := fun k => if k = "name" then some (.str " ") else none

/-- Responses choosing a checkbox value outside the options list. -/
def rsGreen : Responses := fun k => if k = "colors" then some (.arr ["Green"]) else none

/-- Responses choosing a select value outside the options list. -/
def rsOther : Responses := fun k => if k = "subject" then some (.str "Something else") else none



/-! ### Helper lemmas about the validator -/

/-- The exact condition under which the source's required check fires:
absent (`undefined`/`null`), the empty string, or an empty array.
The source compares `value === ''` without trimming. -/
def missingOrBlank : Option Value → Bool
  | none => true
  | some (.str s) => s == ""
  | some (.arr l) => l.isEmpty

theorem requiredError_eq (rs : Responses) (f : FormField) :
    requiredError rs f =
      if f.required && missingOrBlank (rs f.id) then [f.label ++ " is required"] else [] := by
  cases hq : f.required with
  | false => simp [requiredError, hq]
  | true =>
    cases hr : rs f.id with
    | none => simp [requiredError, missingOrBlank, hr, hq]
    | some v =>
      cases v with
      | str s => by_cases hs : s = "" <;>
          simp [requiredError, missingOrBlank, hr, hq, hs]
      | arr l => by_cases hl : l = [] <;>
          simp [requiredError, missingOrBlank, hr, hq, hl]

theorem append_ne_of_length_ne {a b : String} (l : String) (h : a.length ≠ b.length) :
    l ++ a ≠ l ++ b := by
  intro he
  have hl := congrArg String.length he
  rw [String.length_append, String.length_append] at hl
  omega

theorem mem_emailFieldError (rs : Responses) (f : FormField) (m : String)
    (h : m ∈ emailFieldError rs f) : m = f.label ++ " must be a valid email address" := by
  unfold emailFieldError at h
  split at h
  · cases hr : rs f.id <;> rw [hr] at h <;> simp at h
    exact h.2
  · simp at h

theorem mem_selectRadioError (rs : Responses) (f : FormField) (m : String)
    (h : m ∈ selectRadioError rs f) : m = f.label ++ " contains an invalid option" := by
  unfold selectRadioError at h
  split at h
  · cases hr : rs f.id <;> cases ho : f.options <;> rw [hr, ho] at h <;> simp at h
    exact h.2
  · simp at h

theorem mem_checkboxError (rs : Responses) (f : FormField) (m : String)
    (h : m ∈ checkboxError rs f) :
    ∃ x, m = f.label ++ (" contains an invalid option: " ++ x) := by
  unfold checkboxError at h
  split at h
  · cases hr : rs f.id <;> cases ho : f.options <;> rw [hr, ho] at h <;> simp at h
    obtain ⟨x, -, hx⟩ := h
    exact ⟨x, by rw [← hx.2, String.append_assoc]⟩
  · simp at h

theorem count_required_fieldErrors (rs : Responses) (f : FormField) :
    (fieldErrors rs f).count (f.label ++ " is required") =
      if f.required && missingOrBlank (rs f.id) then 1 else 0 := by
  unfold fieldErrors
  rw [List.count_append, List.count_append, List.count_append]
  have h1 : (emailFieldError rs f).count (f.label ++ " is required") = 0 := by
    rw [List.count_eq_zero]
    intro hm
    exact absurd (mem_emailFieldError rs f _ hm).symm
      (append_ne_of_length_ne f.label (by decide))
  have h2 : (selectRadioError rs f).count (f.label ++ " is required") = 0 := by
    rw [List.count_eq_zero]
    intro hm
    exact absurd (mem_selectRadioError rs f _ hm).symm
      (append_ne_of_length_ne f.label (by decide))
  have h3 : (checkboxError rs f).count (f.label ++ " is required") = 0 := by
    rw [List.count_eq_zero]
    intro hm
    obtain ⟨x, hx⟩ := mem_checkboxError rs f _ hm
    refine absurd hx.symm (append_ne_of_length_ne f.label ?_)
    rw [String.length_append]
    have hc : (" contains an invalid option: ").length = 29 := by decide
    have hd : (" is required").length = 12 := by decide
    omega
  rw [h1, h2, h3, requiredError_eq]
  split <;> simp

theorem validateFormResponses_eq_flatten (fields : List FormField) (rs : Responses) :
    validateFormResponses fields rs = (fields.map (fieldErrors rs)).flatten := by
  unfold validateFormResponses
  suffices h : ∀ acc : List String,
      fields.foldl (fun a f => a ++ fieldErrors rs f) acc =
        acc ++ (fields.map (fieldErrors rs)).flatten by
    simpa using h []
  induction fields with
  | nil => intro acc; simp
  | cons f rest ih => intro acc; simp [ih, List.append_assoc]

/-! ### Claim theorems -/

/-- C1: the code double-increments the denormalized counter — the schema's
`AFTER INSERT` trigger adds 1 and the route's explicit `UPDATE` adds another —
so after one successful submission to a fresh form the counter is 2 where the
claim requires 1, and after that submission is deleted it is 1 where the claim
requires 0. -/
theorem C1_counter_double_increment :
    (handleSubmit (some formPlain) rsEmpty "1.1.1.1" "ua" db0 "s1" none
        (.error .transport)).1 = .success ⟨"s1", none, none, none⟩ ∧
    (handleSubmit (some formPlain) rsEmpty "1.1.1.1" "ua" db0 "s1" none
        (.error .transport)).2.counts "f1" = 2 ∧
    (deleteSubmissionById
        (handleSubmit (some formPlain) rsEmpty "1.1.1.1" "ua" db0 "s1" none
          (.error .transport)).2 "s1").counts "f1" = 1 := by decide

/-- C2 (counterexample): a request that both fails field validation and
matches an existing per-IP submission receives the duplicate-conflict
rejection, not the validation rejection — the uniqueness check runs first. -/
theorem C2_counterexample :
    (handleSubmit (some formIp) rsEmpty "9.9.9.9" "ua" dbIp "s9" none
        (.error .transport)).1 =
      .duplicate "You have already submitted this form from this IP address" ∧
    (validateFormResponses formIp.fields rsEmpty).isEmpty = false ∧
    errorCodeOf (handleSubmit (some formIp) rsEmpty "9.9.9.9" "ua" dbIp "s9" none
        (.error .transport)).1 = "DUPLICATE_SUBMISSION" ∧
    statusOf (handleSubmit (some formIp) rsEmpty "9.9.9.9" "ua" dbIp "s9" none
        (.error .transport)).1 = 409 := by decide

/-- C2 (amended): within one request the stages run uniqueness check, then
response validation, then write, then side effects; whenever the uniqueness
check rejects as duplicate, the client receives the duplicate-conflict
rejection (HTTP 409) even if validation would also have failed, and no state
changes. -/
theorem C2_uniqueness_before_validation (form : Form) (rs : Responses)
    (ip ua : String) (db : DbState) (nid : String) (qr : Option String)
    (er : Except EmailSendError SendSuccess) (m : String)
    (hdup : uniqueCheck form rs ip db.submissions = .duplicate m)
    (hval : validateFormResponses form.fields rs ≠ []) :
    handleSubmit (some form) rs ip ua db nid qr er = (.duplicate m, db) ∧
    statusOf (.duplicate m) = 409 ∧
    errorCodeOf (.duplicate m) ≠
      errorCodeOf (.validationFailed (validateFormResponses form.fields rs)) := by
  refine ⟨?_, rfl, by simp [errorCodeOf]⟩
  simp [handleSubmit, hdup]

/-- C2 (witness): the amended theorem applied at the concrete per-IP
duplicate-plus-invalid request. -/
theorem C2_witness :
    handleSubmit (some formIp) rsEmpty "9.9.9.9" "ua" dbIp "s9" none
        (.error .transport) =
      (.duplicate "You have already submitted this form from this IP address", dbIp) ∧
    statusOf (.duplicate "You have already submitted this form from this IP address") = 409 ∧
    errorCodeOf
        (.duplicate "You have already submitted this form from this IP address") ≠
      errorCodeOf (.validationFailed (validateFormResponses formIp.fields rsEmpty)) :=
  C2_uniqueness_before_validation formIp rsEmpty "9.9.9.9" "ua" dbIp "s9" none
    (.error .transport) "You have already submitted this form from this IP address"
    (by decide) (by decide)

/-- C3: when email notification is enabled, a submitter email was extracted
and the email send fails, the request still completes as HTTP 201 with
`emailSent: false` and an error note, the inserted row stays in the database,
and a QR-generation failure likewise surfaces as an absent `qrCode`. -/
theorem C3_side_effect_isolation (form : Form) (rs : Responses)
    (ip ua : String) (db : DbState) (nid : String) (qr : Option String)
    (em : String) (e : EmailSendError)
    (h1 : uniqueCheck form rs ip db.submissions = .ok)
    (h2 : validateFormResponses form.fields rs = [])
    (h3 : extractSubmitterEmail form.fields rs = .ok (some em))
    (h4 : form.send_email_notification = true) :
    handleSubmit (some form) rs ip ua db nid qr (.error e) =
      (.success ⟨nid, (if form.show_qr_code then qr else none), some false,
          some "Failed to send confirmation email"⟩,
        routeIncrementCount
          (insertSubmission db ⟨nid, form.id, rs, some em, ip, ua⟩) form.id) ∧
    statusOf (handleSubmit (some form) rs ip ua db nid qr (.error e)).1 = 201 ∧
    (⟨nid, form.id, rs, some em, ip, ua⟩ : SubmissionRow) ∈
      (handleSubmit (some form) rs ip ua db nid qr (.error e)).2.submissions ∧
    (qr = none →
      (handleSubmit (some form) rs ip ua db nid qr (.error e)).1 =
        .success ⟨nid, none, some false, some "Failed to send confirmation email"⟩) := by
  have hmain : handleSubmit (some form) rs ip ua db nid qr (.error e) =
      (.success ⟨nid, (if form.show_qr_code then qr else none), some false,
          some "Failed to send confirmation email"⟩,
        routeIncrementCount
          (insertSubmission db ⟨nid, form.id, rs, some em, ip, ua⟩) form.id) := by
    simp [handleSubmit, h1, h2, h3, h4]
  refine ⟨hmain, ?_, ?_, ?_⟩
  · rw [hmain]
    rfl
  · rw [hmain]
    simp [routeIncrementCount, insertSubmission]
  · intro hq
    rw [hmain, hq]
    simp

/-- C3 (witness): the theorem applied at the concrete notify-enabled form
with a failing email send and a failing QR generation. -/
theorem C3_witness :
    (handleSubmit (some formNotify) rsEmail "1.1.1.1" "ua" db0 "s3" none
        (.error .transport)).1 =
      .success ⟨"s3", none, some false, some "Failed to send confirmation email"⟩ ∧
    (⟨"s3", "f4", rsEmail, some "a@b.co", "1.1.1.1", "ua"⟩ : SubmissionRow) ∈
      (handleSubmit (some formNotify) rsEmail "1.1.1.1" "ua" db0 "s3" none
        (.error .transport)).2.submissions := by
  have h := C3_side_effect_isolation formNotify rsEmail "1.1.1.1" "ua" db0 "s3" none
    "a@b.co" .transport (by decide) (by decide) (by rfl) rfl
  exact ⟨h.2.2.2 rfl, h.2.2.1⟩

/-- C4 (counterexample): a present but malformed email-typed value is
rejected as the generic `FORM_VALIDATION_ERROR` kind, not as the distinct
`INVALID_EMAIL_FORMAT` bad-request kind the claim describes. -/
theorem C4_counterexample :
    (handleSubmit (some formBadEmail) rsBadEmail "1.1.1.1" "ua" db0 "s4" none
        (.error .transport)).1 =
      .validationFailed ["Email Address must be a valid email address"] ∧
    errorCodeOf (handleSubmit (some formBadEmail) rsBadEmail "1.1.1.1" "ua" db0 "s4" none
        (.error .transport)).1 = "FORM_VALIDATION_ERROR" ∧
    errorCodeOf (handleSubmit (some formBadEmail) rsBadEmail "1.1.1.1" "ua" db0 "s4" none
        (.error .transport)).1 ≠ "INVALID_EMAIL_FORMAT" := by decide

/-- C4 (amended): a submission whose email-typed field holds a present but
malformed address is rejected whole, as the generic field-validation error
(HTTP 400, `FORM_VALIDATION_ERROR`) — the validation stage catches the shape
failure before the extraction stage's distinct `INVALID_EMAIL_FORMAT`
rejection can be reached — with the shape message in the error list and no
state change. -/
theorem C4_malformed_email_is_validation_error (form : Form) (rs : Responses)
    (ip ua : String) (db : DbState) (nid : String) (qr : Option String)
    (er : Except EmailSendError SendSuccess) (f : FormField) (v : Value)
    (hmem : f ∈ form.fields) (htype : f.type = "email")
    (hv : rs f.id = some v) (htr : jsTruthy (some v) = true)
    (hbad : emailRegexTest (jsToString v) = false)
    (hok : uniqueCheck form rs ip db.submissions = .ok) :
    handleSubmit (some form) rs ip ua db nid qr er =
      (.validationFailed (validateFormResponses form.fields rs), db) ∧
    (f.label ++ " must be a valid email address") ∈ validateFormResponses form.fields rs ∧
    errorCodeOf (.validationFailed (validateFormResponses form.fields rs)) =
      "FORM_VALIDATION_ERROR" ∧
    statusOf (.validationFailed (validateFormResponses form.fields rs)) = 400 := by
  have hmsg : (f.label ++ " must be a valid email address") ∈
      validateFormResponses form.fields rs := by
    rw [validateFormResponses_eq_flatten]
    refine List.mem_flatten.mpr ⟨fieldErrors rs f, List.mem_map_of_mem _ hmem, ?_⟩
    unfold fieldErrors
    refine List.mem_append.mpr (.inl (List.mem_append.mpr (.inl (List.mem_append.mpr (.inr ?_)))))
    simp [emailFieldError, hv, htype, htr, hbad]
  have hne : validateFormResponses form.fields rs ≠ [] := List.ne_nil_of_mem hmsg
  refine ⟨?_, hmsg, rfl, rfl⟩
  simp [handleSubmit, hok, hne]

/-- C4 (witness): the amended theorem applied at the concrete malformed
request. -/
theorem C4_witness :
    handleSubmit (some formBadEmail) rsBadEmail "1.1.1.1" "ua" db0 "s4" none
        (.error .transport) =
      (.validationFailed (validateFormResponses formBadEmail.fields rsBadEmail), db0) ∧
    ("Email Address" ++ " must be a valid email address") ∈
      validateFormResponses formBadEmail.fields rsBadEmail :=
  have h := C4_malformed_email_is_validation_error formBadEmail rsBadEmail "1.1.1.1" "ua"
    db0 "s4" none (.error .transport) emailAddressField (.str "not-an-email")
    (by decide) rfl (by decide) (by decide) (by decide) (by decide)
  ⟨h.1, h.2.1⟩

theorem mem_requiredError (rs : Responses) (f : FormField) (m : String)
    (h : m ∈ requiredError rs f) : m = f.label ++ " is required" := by
  rw [requiredError_eq] at h
  split at h <;> simp_all

theorem selectRadioError_allow_other (rs : Responses) (f : FormField)
    (hao : f.allow_other = true) : selectRadioError rs f = [] := by
  unfold selectRadioError
  split
  · cases hr : rs f.id <;> cases ho : f.options <;> simp [hao]
  · rfl

/-- C5 (counterexample): a checkbox field with `allow_other` set still
rejects an out-of-options element — the checkbox branch never consults the
flag. -/
theorem C5_counterexample :
    validateFormResponses [colorsField] rsGreen =
      ["Colors contains an invalid option: Green"] ∧
    colorsField.allow_other = true := by decide

/-- C5 (amended): for select and radio fields the `allow_other` flag is
honoured — no invalid-option error can arise when it is set — but for
checkbox (multi-choice) fields the per-element option check runs regardless
of the flag, rejecting every element outside the options list. -/
theorem C5_allow_other_select_radio_only (rs : Responses) (f : FormField) :
    ((f.type = "select" ∨ f.type = "radio") → f.allow_other = true →
      (f.label ++ " contains an invalid option") ∉ fieldErrors rs f) ∧
    (f.type = "checkbox" → ∀ opts v x, f.options = some opts → rs f.id = some v →
      jsTruthy (some v) = true → x ∈ jsToArray v → x ∉ opts →
      (f.label ++ " contains an invalid option: " ++ x) ∈ fieldErrors rs f) := by
  constructor
  · intro htype hao hm
    unfold fieldErrors at hm
    rw [selectRadioError_allow_other rs f hao] at hm
    rcases List.mem_append.mp hm with hm | hm
    · rcases List.mem_append.mp hm with hm | hm
      · rcases List.mem_append.mp hm with hm | hm
        · exact absurd (mem_requiredError rs f _ hm).symm
            (append_ne_of_length_ne f.label (by decide))
        · exact absurd (mem_emailFieldError rs f _ hm).symm
            (append_ne_of_length_ne f.label (by decide))
      · simp at hm
    · rcases htype with h | h <;> simp [checkboxError, h] at hm
  · intro hc opts v x ho hv htr hx hnx
    unfold fieldErrors
    refine List.mem_append.mpr (.inr ?_)
    have hcontains : opts.contains x = false := by
      simpa using hnx
    have hcb : checkboxError rs f = (jsToArray v).filterMap (fun y =>
        if opts.contains y then none
        else some (f.label ++ " contains an invalid option: " ++ y)) := by
      simp [checkboxError, hc, hv, htr, ho]
    rw [hcb]
    exact List.mem_filterMap.mpr ⟨x, hx, by simp [hcontains, hnx]⟩

/-- C5 (witness): the amended theorem applied at a select field with
`allow_other` (out-of-options value accepted) and at a checkbox field with
`allow_other` (out-of-options element still rejected). -/
theorem C5_witness :
    ("Subject" ++ " contains an invalid option") ∉ fieldErrors rsOther subjectField ∧
    ("Colors" ++ " contains an invalid option: " ++ "Green") ∈
      fieldErrors rsGreen colorsField := by
  constructor
  · exact (C5_allow_other_select_radio_only rsOther subjectField).1 (Or.inl rfl) rfl
  · exact (C5_allow_other_select_radio_only rsGreen colorsField).2 rfl ["Red", "Blue"]
      (.arr ["Green"]) "Green" rfl (by decide) (by decide) (by decide) (by decide)

theorem missingOrBlank_iff (o : Option Value) :
    missingOrBlank o = true ↔
      (o = none ∨ o = some (.str "") ∨ o = some (.arr [])) := by
  cases o with
  | none => simp [missingOrBlank]
  | some v => cases v <;> simp [missingOrBlank]

/-- C6 (counterexample): a whitespace-only value for a required field passes
the required check — the source compares against the exact empty string
without trimming — so no "is required" error is produced although the
trimmed form is empty. -/
theorem C6_counterexample :
    validateFormResponses [fullNameField] rsBlank = [] ∧
    fullNameField.required = true ∧
    jsTrim " " = "" := by decide

/-- C6 (amended): for a required field, the error `"<label> is required"` is
produced exactly when the value is absent, the exact empty string, or an
empty array; a scalar whose trimmed form is empty but which is not the exact
empty string (such as `" "`) is accepted. -/
theorem C6_required_blank_forms (rs : Responses) (f : FormField)
    (hreq : f.required = true) :
    (f.label ++ " is required") ∈ fieldErrors rs f ↔
      (rs f.id = none ∨ rs f.id = some (.str "") ∨ rs f.id = some (.arr [])) := by
  rw [← missingOrBlank_iff]
  constructor
  · intro hm
    unfold fieldErrors at hm
    rcases List.mem_append.mp hm with hm | hm
    · rcases List.mem_append.mp hm with hm | hm
      · rcases List.mem_append.mp hm with hm | hm
        · rw [requiredError_eq] at hm
          by_cases hb : missingOrBlank (rs f.id) = true
          · exact hb
          · simp [hreq, hb] at hm
        · exact absurd (mem_emailFieldError rs f _ hm).symm
            (append_ne_of_length_ne f.label (by decide))
      · exact absurd (mem_selectRadioError rs f _ hm).symm
          (append_ne_of_length_ne f.label (by decide))
    · obtain ⟨x, hx⟩ := mem_checkboxError rs f _ hm
      refine absurd hx.symm (append_ne_of_length_ne f.label ?_)
      rw [String.length_append]
      have hc : (" contains an invalid option: ").length = 29 := by decide
      have hd : (" is required").length = 12 := by decide
      omega
  · intro hb
    unfold fieldErrors
    refine List.mem_append.mpr (.inl (List.mem_append.mpr (.inl (List.mem_append.mpr (.inl ?_)))))
    rw [requiredError_eq]
    simp [hreq, hb]

/-- C6 (witness): the amended theorem applied at a required field with an
absent value (message produced) and at a required field with a
whitespace-only value (no message). -/
theorem C6_witness :
    ("Full Name" ++ " is required") ∈ fieldErrors rsEmpty fullNameField ∧
    ("Full Name" ++ " is required") ∉ fieldErrors rsBlank fullNameField := by
  constructor
  · exact (C6_required_blank_forms rsEmpty fullNameField rfl).mpr (Or.inl rfl)
  · intro hm
    have h := (C6_required_blank_forms rsBlank fullNameField rfl).mp hm
    simp [rsBlank, fullNameField] at h

/-- C7 (counterexample): with a required name field holding a whitespace-only
value (blank once trimmed) and a required email field left absent, the error
list contains no message at all for the name field — not exactly one — so a
blank required field can be silently dropped. -/
theorem C7_counterexample :
    validateFormResponses pairFields rsBlank = ["Email Address is required"] ∧
    fullNameField.required = true ∧
    jsTrim " " = "" ∧
    (validateFormResponses pairFields rsBlank).count "Full Name is required" = 0 := by
  decide

/-- C7 (amended): the validator is not fail-fast — its output is the
concatenation of every field's own error list, in schema order — and for each
field of the schema the output holds exactly one `"<label> is required"`
message when the field is required and its value is absent, the exact empty
string, or an empty array (whitespace-only values are not counted as blank),
and none otherwise. -/
theorem C7_collects_all_errors (fields : List FormField) (rs : Responses)
    (f : FormField) (hf : f ∈ fields) :
    validateFormResponses fields rs = (fields.map (fieldErrors rs)).flatten ∧
    (fieldErrors rs f).count (f.label ++ " is required") =
      (if f.required && missingOrBlank (rs f.id) then 1 else 0) :=
  ⟨validateFormResponses_eq_flatten fields rs, count_required_fieldErrors rs f⟩

/-- C7 (witness): the amended theorem applied at the two-field schema with
both required fields missing or empty. -/
theorem C7_witness :
    validateFormResponses pairFields rsEmpty =
      (pairFields.map (fieldErrors rsEmpty)).flatten ∧
    (fieldErrors rsEmpty fullNameField).count ("Full Name" ++ " is required") =
      (if fullNameField.required && missingOrBlank (rsEmpty fullNameField.id)
        then 1 else 0) :=
  C7_collects_all_errors pairFields rsEmpty fullNameField (by decide)

theorem uniqueCheck_ip (form : Form) (rs : Responses) (ip : String)
    (subs : List SubmissionRow) (hty : form.unique_constraint_type = some "ip") :
    uniqueCheck form rs ip subs =
      (if subs.any (fun s => s.form_id = form.id && s.submitter_ip = ip)
        then .duplicate "You have already submitted this form from this IP address"
        else .ok) := by
  unfold uniqueCheck
  rw [hty]
  rfl

/-- C8: for a form whose uniqueness constraint type is `'ip'`, a prior
submission of the same form from the requester's IP makes the endpoint
reject with HTTP 409 `DUPLICATE_SUBMISSION`, leaving the database untouched;
with no such prior submission the check returns ok and the request proceeds
to the later stages. -/
theorem C8_per_ip_duplicate (form : Form) (rs : Responses) (ip ua : String)
    (db : DbState) (nid : String) (qr : Option String)
    (er : Except EmailSendError SendSuccess)
    (hty : form.unique_constraint_type = some "ip") :
    ((∃ s ∈ db.submissions, s.form_id = form.id ∧ s.submitter_ip = ip) →
      handleSubmit (some form) rs ip ua db nid qr er =
        (.duplicate "You have already submitted this form from this IP address", db) ∧
      statusOf
        (.duplicate "You have already submitted this form from this IP address") = 409 ∧
      errorCodeOf
        (.duplicate "You have already submitted this form from this IP address") =
          "DUPLICATE_SUBMISSION") ∧
    ((¬ ∃ s ∈ db.submissions, s.form_id = form.id ∧ s.submitter_ip = ip) →
      uniqueCheck form rs ip db.submissions = .ok) := by
  constructor
  · intro hex
    have hany : (db.submissions.any
        fun s => s.form_id = form.id && s.submitter_ip = ip) = true := by
      rw [List.any_eq_true]
      obtain ⟨s, hs, h1, h2⟩ := hex
      exact ⟨s, hs, by simp [h1, h2]⟩
    have huc : uniqueCheck form rs ip db.submissions =
        .duplicate "You have already submitted this form from this IP address" := by
      rw [uniqueCheck_ip form rs ip db.submissions hty, if_pos hany]
    exact ⟨by simp [handleSubmit, huc], rfl, rfl⟩
  · intro hnex
    rw [uniqueCheck_ip form rs ip db.submissions hty, if_neg]
    intro hany
    obtain ⟨s, hs, hp⟩ := List.any_eq_true.mp hany
    simp at hp
    exact hnex ⟨s, hs, hp⟩

/-- C8 (witness): the theorem applied at the concrete per-IP form, with a
matching prior submission for one IP and no match for another. -/
theorem C8_witness :
    handleSubmit (some formIp) rsEmpty "9.9.9.9" "ua2" dbIp "s8" none
        (.error .transport) =
      (.duplicate "You have already submitted this form from this IP address", dbIp) ∧
    uniqueCheck formIp rsEmpty "8.8.8.8" dbIp.submissions = .ok := by
  constructor
  · exact ((C8_per_ip_duplicate formIp rsEmpty "9.9.9.9" "ua2" dbIp "s8" none
      (.error .transport) rfl).1 ⟨rowIp, by simp [dbIp], rfl, rfl⟩).1
  · exact (C8_per_ip_duplicate formIp rsEmpty "8.8.8.8" "ua2" dbIp "s8" none
      (.error .transport) rfl).2 (by decide)

/-- C9: for a form whose uniqueness constraint type is `'field'`, a missing
constraint-field configuration or an absent value at that field makes the
endpoint reject with HTTP 400 `UNIQUE_FIELD_REQUIRED` — a kind distinct from
the duplicate conflict — before any submission row is written. -/
theorem C9_unique_field_required (form : Form) (rs : Responses) (ip ua : String)
    (db : DbState) (nid : String) (qr : Option String)
    (er : Except EmailSendError SendSuccess)
    (hty : form.unique_constraint_type = some "field")
    (habs : form.unique_constraint_field = none ∨
      ∃ cf, form.unique_constraint_field = some cf ∧ rs cf = none) :
    handleSubmit (some form) rs ip ua db nid qr er = (.uniqueFieldRequired, db) ∧
    statusOf .uniqueFieldRequired = 400 ∧
    errorCodeOf .uniqueFieldRequired = "UNIQUE_FIELD_REQUIRED" ∧
    errorCodeOf .uniqueFieldRequired ≠
      errorCodeOf (.duplicate "A submission with this value already exists") ∧
    (handleSubmit (some form) rs ip ua db nid qr er).2.submissions =
      db.submissions := by
  have huc : uniqueCheck form rs ip db.submissions = .missingField := by
    unfold uniqueCheck
    rw [hty]
    rcases habs with h | ⟨cf, hcf, hnone⟩
    · rw [h]
      rfl
    · rw [hcf]
      simp [hnone, jsTruthy]
  refine ⟨by simp [handleSubmit, huc], rfl, rfl, by simp [errorCodeOf], ?_⟩
  simp [handleSubmit, huc]

/-- C9 (witness): the theorem applied at the concrete per-field form with
the constraint field's value absent from the responses. -/
theorem C9_witness :
    handleSubmit (some formUniqueField) rsEmpty "1.1.1.1" "ua" db0 "s6" none
        (.error .transport) = (.uniqueFieldRequired, db0) ∧
    statusOf .uniqueFieldRequired = 400 :=
  have h := C9_unique_field_required formUniqueField rsEmpty "1.1.1.1" "ua" db0 "s6"
    none (.error .transport) rfl (Or.inr ⟨"email", rfl, rfl⟩)
  ⟨h.1, h.2.1⟩

/-- C10: with the SendGrid provider, the service's success return reads
`response.data.id` from the array `sgMail.send` resolves to, which has no
`data` property, so every transport-successful call still throws a
`TypeError`; only the kirim provider can reach the success return; plugged
into the submit handler, the caught error surfaces as `emailSent: false`
although the message was delivered. -/
theorem C10_sendgrid_success_still_throws (kSt : Nat) (kId : Option String)
    (sgSt : Nat) (p : Provider) (tf : Bool) (r : SendSuccess) (form : Form)
    (rs : Responses) (ip ua : String) (db : DbState) (nid : String)
    (qr : Option String) (em : String)
    (h1 : uniqueCheck form rs ip db.submissions = .ok)
    (h2 : validateFormResponses form.fields rs = [])
    (h3 : extractSubmitterEmail form.fields rs = .ok (some em))
    (h4 : form.send_email_notification = true) :
    sendSubmissionConfirmation .sendgrid false kSt kId sgSt = .error .typeError ∧
    (sendSubmissionConfirmation p tf kSt kId sgSt = .ok r → p = .kirim) ∧
    (handleSubmit (some form) rs ip ua db nid qr
        (sendSubmissionConfirmation .sendgrid false kSt kId sgSt)).1 =
      .success ⟨nid, (if form.show_qr_code then qr else none), some false,
        some "Failed to send confirmation email"⟩ := by
  have hsg : sendSubmissionConfirmation .sendgrid false kSt kId sgSt =
      .error .typeError := rfl
  refine ⟨hsg, ?_, ?_⟩
  · intro hok
    cases p with
    | kirim => rfl
    | sendgrid =>
      cases tf <;>
        simp [sendSubmissionConfirmation, providerSend, responseDataOf] at hok
  · rw [hsg]
    simp [handleSubmit, h1, h2, h3, h4]

/-- C10 (witness): the theorem applied at the concrete notify-enabled form
with a transport-successful SendGrid send. -/
theorem C10_witness :
    sendSubmissionConfirmation .sendgrid false 200 (some "m") 202 =
      .error .typeError ∧
    (handleSubmit (some formNotify) rsEmail "1.1.1.1" "ua" db0 "s5" none
        (sendSubmissionConfirmation .sendgrid false 200 (some "m") 202)).1 =
      .success ⟨"s5", (if formNotify.show_qr_code then none else none), some false,
        some "Failed to send confirmation email"⟩ := by
  have h := C10_sendgrid_success_still_throws 200 (some "m") 202 .kirim false
    ⟨"m", some 200⟩ formNotify rsEmail "1.1.1.1" "ua" db0 "s5" none "a@b.co"
    (by decide) (by decide) (by rfl) rfl
  exact ⟨h.1, h.2.2⟩
